import Mathlib

/-!
Verification of the chat-session state machine and prompt loaders of the
AI-CAREER-ADVISOR repository (`src/main.py`), as a shallow embedding in Lean.

Filesystem reads are modelled by passing the file content as an
`Option String` (`none` = the file does not exist).  The Streamlit script
body is modelled as a per-rerun transition function on the session state;
external effects (agent construction, the delegated `agent.run` call) are
parameters of the turn input, given as `Except` values describing whether
the Python call returns or raises.
-/

/-- Approximation of Python `str.isspace` characters relevant to `str.strip`:
space, tab, newline, carriage return, vertical tab, form feed. -/
def isPySpace (c : Char) : Bool :=
  c = ' ' || c = '\t' || c = '\n' || c = '\r' || c = '\x0b' || c = '\x0c'

/-- Python `str.strip()`: drop leading and trailing whitespace. -/
def pyStrip (s : String) : String :=
  String.mk (((s.data.dropWhile isPySpace).reverse.dropWhile isPySpace).reverse)

/-- Python `str.splitlines()`: split at line boundaries (LF, CR, CRLF),
without a trailing empty segment. -/
def pySplitlinesAux : List Char → List Char → List String
  | [], acc => if acc.isEmpty then [] else [String.mk acc.reverse]
  | '\r' :: '\n' :: rest, acc => String.mk acc.reverse :: pySplitlinesAux rest []
  | '\r' :: rest, acc => String.mk acc.reverse :: pySplitlinesAux rest []
  | '\n' :: rest, acc => String.mk acc.reverse :: pySplitlinesAux rest []
  | c :: rest, acc => pySplitlinesAux rest (c :: acc)

/-- Python `str.splitlines()` on a whole string. -/
def pySplitlines (s : String) : List String :=
  pySplitlinesAux s.data []

/-- Python `str.startswith(pre)`, via the underlying character lists. -/
def pyStartsWith (s pre : String) : Bool :=
  pre.data.isPrefixOf s.data

/-- Embedding of `load_system_prompt` (`src/main.py` lines 15-22).
The argument is the content of `system_prompt.txt`, or `none` when the
file does not exist. -/
def load_system_prompt (file : Option String) : String :=
  match file with
  | some content => content
  | none => "You are a helpful AI assistant."

/-- Embedding of `load_example_prompts` (`src/main.py` lines 24-34).
The argument is the content of `example_prompts.txt`, or `none` when the
file does not exist. -/
def load_example_prompts (file : Option String) : List String :=
  match file with
  | some content =>
      let lines := (pySplitlines content).map pyStrip
      lines.filter (fun ln => ln != "" && !(pyStartsWith ln "#"))
  | none =>
      [ "Tell me about a breaking news story happening in Times Square.",
        "What's the latest development in NYC's tech scene?",
        "Tell me about any upcoming events at Madison Square Garden" ]

/-- A chat message: `{"role": ..., "content": ...}` as appended to
`st.session_state.messages`, and also a rendered chat bubble. -/
structure Message where
  role : String
  content : String
deriving DecidableEq, Repr

/-- The handle held in `st.session_state.agent`.  The only observable the
script uses is `agent.model.api_key`, the key embedded at construction
(`src/main.py` line 69 and 75). -/
structure AgentHandle where
  apiKey : String
deriving DecidableEq, Repr

/-- The Streamlit session state of `src/main.py`: `messages`, `agent`,
and the optional pending slot `example_prompt`. -/
structure SessionState where
  messages : List Message
  agent : Option AgentHandle
  examplePrompt : Option String
deriving DecidableEq, Repr

/-- The session state after the initialization block (`src/main.py`
lines 43-46) on the very first run: empty history, no agent, no pending
example prompt. -/
def initialState : SessionState :=
  { messages := [], agent := none, examplePrompt := none }

/-- The external events and outcomes of one script rerun:
the api key visible in the sidebar, the outcome of `Agent(...)` should it
be executed (`.error e` = the constructor raises with message `e`),
which example button was clicked this rerun (if any), what
`st.chat_input` returns (`none` = no submission), and the outcome of
`st.session_state.agent.run(prompt, stream=False)` should it be executed
(`.ok r` = response with content `r`, `.error e` = raises with message `e`). -/
structure TurnInput where
  apiKey : String
  buildOutcome : Except String Unit
  clickedExample : Option String
  chatInput : Option String
  runOutcome : Except String String
deriving Repr

/-- Result of the sidebar configuration block (`src/main.py` lines 49-95),
as far as agent state is concerned. -/
structure SidebarResult where
  agent : Option AgentHandle
  notices : List String
  constructions : Nat
deriving DecidableEq, Repr

/-- The rebuild condition of `src/main.py` line 69:
`st.session_state.agent is None or st.session_state.agent.model.api_key != api_key`. -/
def needsRebuild : Option AgentHandle → String → Bool
  | none, _ => true
  | some a, key => a.apiKey != key

/-- Sidebar agent initialization (`src/main.py` lines 67-84): when the key
is non-empty and the rebuild condition holds, `Agent(...)` is attempted;
on success the slot is overwritten, on an exception the slot is left
untouched and an error notice is shown. -/
def sidebarStep (agent : Option AgentHandle) (i : TurnInput) : SidebarResult :=
  if i.apiKey ≠ "" then
    if needsRebuild agent i.apiKey then
      match i.buildOutcome with
      | Except.ok _ =>
          { agent := some { apiKey := i.apiKey },
            notices := ["✅ Agent initialized successfully!"],
            constructions := 1 }
      | Except.error e =>
          { agent := agent,
            notices := ["Error initializing agent: " ++ e],
            constructions := 1 }
    else
      { agent := agent, notices := [], constructions := 0 }
  else
    { agent := agent,
      notices := ["⚠️ Please enter your OpenAI API key to start"],
      constructions := 0 }

/-- The fixed warning rendered at `src/main.py` line 125 when a prompt is
submitted while no agent exists. -/
def warningText : String :=
  "⚠️ Please enter your OpenAI API key in the sidebar to start chatting."

/-- The error-prefix marker of `src/main.py` line 139. -/
def errorMark : String := "❌ Error: "

/-- Everything observable about one script rerun: the session state it
leaves behind, the chat bubbles rendered in the main area, the sidebar
notices, and how many times `Agent(...)` and `agent.run(...)` were
executed. -/
structure TurnOutput where
  state : SessionState
  chatRendered : List Message
  sidebarNotices : List String
  constructions : Nat
  agentCalls : Nat
deriving Repr

/-- One full rerun of the script body of `src/main.py` on session state `s`
with external input `i`, in source order: sidebar agent initialization
(lines 67-84), example-button click (lines 92-95, which stores the prompt
and calls `st.rerun()`, aborting the rest of the script), history display
(lines 102-104), pending-example consumption (lines 107-113), and the chat
input dispatch (lines 116-141). -/
def runTurn (s : SessionState) (i : TurnInput) : TurnOutput :=
  let sb := sidebarStep s.agent i
  match i.clickedExample with
  | some p =>
      -- `st.rerun()` at line 95: the main content area never executes.
      { state := { messages := s.messages, agent := sb.agent, examplePrompt := some p },
        chatRendered := [],
        sidebarNotices := sb.notices,
        constructions := sb.constructions,
        agentCalls := 0 }
  | none =>
      let hist := s.messages
      let exampleEcho : List Message :=
        match s.examplePrompt with
        | some p => [Message.mk "user" p]
        | none => []
      let msgs2 := s.messages ++ exampleEcho
      match i.chatInput with
      | some p =>
          if p = "" then
            { state := { messages := msgs2, agent := sb.agent, examplePrompt := none },
              chatRendered := hist ++ exampleEcho,
              sidebarNotices := sb.notices,
              constructions := sb.constructions,
              agentCalls := 0 }
          else
            match sb.agent with
            | none =>
                { state := { messages := msgs2 ++ [Message.mk "user" p],
                             agent := none, examplePrompt := none },
                  chatRendered := hist ++ exampleEcho ++
                    [Message.mk "user" p, Message.mk "assistant" warningText],
                  sidebarNotices := sb.notices,
                  constructions := sb.constructions,
                  agentCalls := 0 }
            | some a =>
                match i.runOutcome with
                | Except.ok r =>
                    { state := { messages := msgs2 ++
                                   [Message.mk "user" p, Message.mk "assistant" r],
                                 agent := some a, examplePrompt := none },
                      chatRendered := hist ++ exampleEcho ++
                        [Message.mk "user" p, Message.mk "assistant" r],
                      sidebarNotices := sb.notices,
                      constructions := sb.constructions,
                      agentCalls := 1 }
                | Except.error e =>
                    { state := { messages := msgs2 ++
                                   [Message.mk "user" p,
                                    Message.mk "assistant" (errorMark ++ e)],
                                 agent := some a, examplePrompt := none },
                      chatRendered := hist ++ exampleEcho ++
                        [Message.mk "user" p, Message.mk "assistant" (errorMark ++ e)],
                      sidebarNotices := sb.notices,
                      constructions := sb.constructions,
                      agentCalls := 1 }
      | none =>
          { state := { messages := msgs2, agent := sb.agent, examplePrompt := none },
            chatRendered := hist ++ exampleEcho,
            sidebarNotices := sb.notices,
            constructions := sb.constructions,
            agentCalls := 0 }

/-- Fold of `runTurn` over a sequence of rerun inputs. -/
def runTurns (s : SessionState) : List TurnInput → SessionState
  | [] => s
  | i :: rest => runTurns (runTurn s i).state rest

theorem runTurn_messages_append (s : SessionState) (i : TurnInput) :
    ∃ t, (runTurn s i).state.messages = s.messages ++ t := by
  obtain ⟨msgs, ag, ex⟩ := s
  obtain ⟨key, bo, ce, ci, ro⟩ := i
  cases ce with
  | some p => exact ⟨[], by simp [runTurn]⟩
  | none =>
    cases ci with
    | none =>
      cases ex with
      | none => exact ⟨[], by simp [runTurn]⟩
      | some q => exact ⟨[Message.mk "user" q], by simp [runTurn]⟩
    | some p =>
      by_cases hp : p = ""
      · cases ex with
        | none => exact ⟨[], by simp [runTurn, hp]⟩
        | some q => exact ⟨[Message.mk "user" q], by simp [runTurn, hp]⟩
      · cases hag : (sidebarStep ag ⟨key, bo, none, some p, ro⟩).agent with
        | none =>
          cases ex with
          | none =>
            exact ⟨[Message.mk "user" p], by simp [runTurn, hp, hag]⟩
          | some q =>
            exact ⟨[Message.mk "user" q, Message.mk "user" p],
              by simp [runTurn, hp, hag]⟩
        | some a =>
          cases ro with
          | ok r =>
            cases ex with
            | none =>
              exact ⟨[Message.mk "user" p, Message.mk "assistant" r],
                by simp [runTurn, hp, hag]⟩
            | some q =>
              exact ⟨[Message.mk "user" q, Message.mk "user" p,
                      Message.mk "assistant" r],
                by simp [runTurn, hp, hag]⟩
          | error e =>
            cases ex with
            | none =>
              exact ⟨[Message.mk "user" p, Message.mk "assistant" (errorMark ++ e)],
                by simp [runTurn, hp, hag]⟩
            | some q =>
              exact ⟨[Message.mk "user" q, Message.mk "user" p,
                      Message.mk "assistant" (errorMark ++ e)],
                by simp [runTurn, hp, hag]⟩

theorem runTurn_sidebar (s : SessionState) (i : TurnInput) :
    (runTurn s i).state.agent = (sidebarStep s.agent i).agent ∧
    (runTurn s i).constructions = (sidebarStep s.agent i).constructions ∧
    (runTurn s i).sidebarNotices = (sidebarStep s.agent i).notices := by
  obtain ⟨msgs, ag, ex⟩ := s
  obtain ⟨key, bo, ce, ci, ro⟩ := i
  cases ce with
  | some p => simp [runTurn]
  | none =>
    cases ci with
    | none => cases ex <;> simp [runTurn]
    | some p =>
      by_cases hp : p = ""
      · cases ex <;> simp [runTurn, hp]
      · cases hag : (sidebarStep ag ⟨key, bo, none, some p, ro⟩).agent with
        | none => cases ex <;> simp [runTurn, hp, hag]
        | some a => cases ro <;> cases ex <;> simp [runTurn, hp, hag]

theorem sidebarStep_agent_cases (ag : Option AgentHandle) (i : TurnInput) :
    (sidebarStep ag i).agent = ag ∨
      ((sidebarStep ag i).agent = some { apiKey := i.apiKey } ∧ i.apiKey ≠ "") := by
  obtain ⟨key, bo, ce, ci, ro⟩ := i
  unfold sidebarStep
  split_ifs with h1 h2
  · cases bo with
    | ok u => exact Or.inr ⟨rfl, h1⟩
    | error e => exact Or.inl rfl
  · exact Or.inl rfl
  · exact Or.inl rfl

theorem sidebarStep_agent_of_empty (ag : Option AgentHandle) (i : TurnInput)
    (h : i.apiKey = "") : (sidebarStep ag i).agent = ag := by
  simp [sidebarStep, h]

theorem runTurn_calls_of_agent_none (s : SessionState) (i : TurnInput)
    (h : (runTurn s i).state.agent = none) : (runTurn s i).agentCalls = 0 := by
  obtain ⟨msgs, ag, ex⟩ := s
  obtain ⟨key, bo, ce, ci, ro⟩ := i
  cases ce with
  | some p => simp [runTurn]
  | none =>
    cases ci with
    | none => cases ex <;> simp [runTurn]
    | some p =>
      by_cases hp : p = ""
      · cases ex <;> simp [runTurn, hp]
      · cases hag : (sidebarStep ag ⟨key, bo, none, some p, ro⟩).agent with
        | none => cases ex <;> simp [runTurn, hp, hag]
        | some a =>
          cases ro <;> cases ex <;> simp [runTurn, hp, hag] at h

theorem runTurns_messages_append (inputs : List TurnInput) (s : SessionState) :
    ∃ t, (runTurns s inputs).messages = s.messages ++ t := by
  induction inputs generalizing s with
  | nil => exact ⟨[], by simp [runTurns]⟩
  | cons i rest ih =>
      obtain ⟨t1, h1⟩ := runTurn_messages_append s i
      obtain ⟨t2, h2⟩ := ih (runTurn s i).state
      exact ⟨t1 ++ t2, by simp [runTurns, h2, h1]⟩

theorem isPrefixOf_append_self (l t : List Char) : l.isPrefixOf (l ++ t) = true := by
  induction l with
  | nil => simp [List.isPrefixOf]
  | cons c cs ih => simp [List.isPrefixOf, ih]

theorem pyStartsWith_append (x y : String) : pyStartsWith (x ++ y) x = true := by
  simp [pyStartsWith, isPrefixOf_append_self]

theorem needsRebuild_iff (ag : Option AgentHandle) (key : String) :
    needsRebuild ag key = true ↔
      (ag = none ∨ ∃ a, ag = some a ∧ a.apiKey ≠ key) := by
  cases ag with
  | none => simp [needsRebuild]
  | some a => simp [needsRebuild, bne_iff_ne]

theorem sidebarStep_same_key (a : AgentHandle) (i : TurnInput)
    (h : i.apiKey = a.apiKey) : (sidebarStep (some a) i).agent = some a := by
  unfold sidebarStep
  split_ifs with h1 h2
  · exfalso
    simp [needsRebuild, h] at h2
  · rfl
  · rfl

theorem sidebarStep_constructions (ag : Option AgentHandle) (i : TurnInput)
    (hk : i.apiKey ≠ "") :
    (sidebarStep ag i).constructions =
      if needsRebuild ag i.apiKey then 1 else 0 := by
  unfold sidebarStep
  rw [if_pos hk]
  split_ifs with h1
  · cases i.buildOutcome <;> rfl
  · rfl

/-! ## Claim theorems -/

/-- C1: over every sequence of turns (example-prompt selection, free-text
submission, successful agent call, failed agent call, missing-key
submission), `messages` is only ever appended to: the old list is an
unchanged initial segment of the new one (so no entry is removed,
reordered, or modified) and its length is monotonically non-decreasing. -/
theorem C1_messages_append_only (s : SessionState) (inputs : List TurnInput) :
    (∃ t, (runTurns s inputs).messages = s.messages ++ t) ∧
    s.messages.length ≤ (runTurns s inputs).messages.length := by
  obtain ⟨t, ht⟩ := runTurns_messages_append inputs s
  exact ⟨⟨t, ht⟩, by simp [ht]⟩

/-- C8: `load_example_prompts` on an existing file splits its content into
lines, strips whitespace from each line, and discards blank lines and
lines beginning with `#`; on the content `"# comment\n\nHello\n  World  \n"`
it returns exactly `["Hello", "World"]`, and on an absent file it returns
the fixed fallback list of exactly three example strings. -/
theorem C8_load_example_prompts_spec :
    (∀ content, load_example_prompts (some content) =
        ((pySplitlines content).map pyStrip).filter
          (fun ln => ln != "" && !(pyStartsWith ln "#"))) ∧
    load_example_prompts (some "# comment\n\nHello\n  World  \n")
      = ["Hello", "World"] ∧
    load_example_prompts none
      = [ "Tell me about a breaking news story happening in Times Square.",
          "What's the latest development in NYC's tech scene?",
          "Tell me about any upcoming events at Madison Square Garden" ] ∧
    (load_example_prompts none).length = 3 :=
  ⟨fun _ => rfl, by decide, rfl, rfl⟩

/-- C9: `load_system_prompt` on a missing file returns exactly
`"You are a helpful AI assistant."`; on an existing file it returns the
whole content unchanged, with no validation. -/
theorem C9_load_system_prompt_spec :
    load_system_prompt none = "You are a helpful AI assistant." ∧
    (∀ content, load_system_prompt (some content) = content) :=
  ⟨rfl, fun _ => rfl⟩

/-- C10: `load_example_prompts` on a file that exists but whose lines are
all blank or `#`-prefixed (after stripping) returns the empty list, not
the three-string fallback; the fallback is used only when the file is
absent. -/
theorem C10_existing_empty_file_yields_no_prompts (content : String)
    (h : ∀ ln ∈ (pySplitlines content).map pyStrip,
        ln = "" ∨ pyStartsWith ln "#" = true) :
    load_example_prompts (some content) = [] ∧
    load_example_prompts none ≠ [] := by
  refine ⟨?_, by decide⟩
  simp only [load_example_prompts]
  rw [List.filter_eq_nil_iff]
  intro a ha
  rcases h a ha with h1 | h1 <;> simp [h1]

/-- Witness for C10 at the concrete file content `"# comment\n\n   \n"`. -/
theorem C10_existing_empty_file_yields_no_prompts_witness :
    (∀ ln ∈ (pySplitlines "# comment\n\n   \n").map pyStrip,
        ln = "" ∨ pyStartsWith ln "#" = true) ∧
    (load_example_prompts (some "# comment\n\n   \n") = [] ∧
      load_example_prompts none ≠ []) :=
  ⟨by decide,
   C10_existing_empty_file_yields_no_prompts "# comment\n\n   \n" (by decide)⟩

/-- C3: when the delegated `agent.run` call raises (modelled by
`runOutcome = .error e`), the exception is caught: the turn completes,
exactly one assistant message is appended whose content starts with the
error-prefix marker, and the message count for the turn increases by
exactly two (the user entry plus the error entry), with no partial or
duplicate entries. -/
theorem C3_agent_error_appends_two (s : SessionState) (i : TurnInput)
    (a : AgentHandle) (p e : String)
    (hex : s.examplePrompt = none) (hce : i.clickedExample = none)
    (hci : i.chatInput = some p) (hp : p ≠ "")
    (hag : (sidebarStep s.agent i).agent = some a)
    (hro : i.runOutcome = Except.error e) :
    (runTurn s i).state.messages =
      s.messages ++ [Message.mk "user" p,
                     Message.mk "assistant" (errorMark ++ e)] ∧
    (runTurn s i).state.messages.length = s.messages.length + 2 ∧
    pyStartsWith (errorMark ++ e) errorMark = true := by
  refine ⟨?_, ?_, pyStartsWith_append errorMark e⟩ <;>
    simp [runTurn, hce, hci, hex, hro, hp, hag]

/-- Witness for C3: one failing agent call on an empty history with the
handle already built for key `"k"`. -/
theorem C3_agent_error_appends_two_witness :
    (SessionState.mk [] (some ⟨"k"⟩) none).examplePrompt = none ∧
    (TurnInput.mk "k" (Except.ok ()) none (some "Hi")
        (Except.error "boom")).clickedExample = none ∧
    ((runTurn (SessionState.mk [] (some ⟨"k"⟩) none)
        (TurnInput.mk "k" (Except.ok ()) none (some "Hi")
          (Except.error "boom"))).state.messages =
      [] ++ [Message.mk "user" "Hi",
             Message.mk "assistant" (errorMark ++ "boom")] ∧
     (runTurn (SessionState.mk [] (some ⟨"k"⟩) none)
        (TurnInput.mk "k" (Except.ok ()) none (some "Hi")
          (Except.error "boom"))).state.messages.length =
       ([] : List Message).length + 2 ∧
     pyStartsWith (errorMark ++ "boom") errorMark = true) :=
  ⟨rfl, rfl,
   C3_agent_error_appends_two (SessionState.mk [] (some ⟨"k"⟩) none)
     (TurnInput.mk "k" (Except.ok ()) none (some "Hi") (Except.error "boom"))
     ⟨"k"⟩ "Hi" "boom" rfl rfl rfl (by decide) (by decide) rfl⟩

/-- C4: with a non-empty supplied key, `Agent(...)` is executed in a turn
if and only if no handle exists yet or the key embedded in the held handle
differs from the supplied key (string comparison, line 69); and across two
consecutive turns that supply the same non-empty key starting with no
handle, construction happens exactly once and the second turn reuses the
handle built by the first. -/
theorem C4_agent_reconstruction (s : SessionState) (i j : TurnInput)
    (hk : i.apiKey ≠ "") (hbo : i.buildOutcome = Except.ok ())
    (hjk : j.apiKey = i.apiKey) :
    ((runTurn s i).constructions = 1 ↔
        (s.agent = none ∨ ∃ a, s.agent = some a ∧ a.apiKey ≠ i.apiKey)) ∧
    (s.agent = none →
        (runTurn s i).constructions
            + (runTurn (runTurn s i).state j).constructions = 1 ∧
        (runTurn (runTurn s i).state j).state.agent
            = (runTurn s i).state.agent) := by
  constructor
  · rw [(runTurn_sidebar s i).2.1, sidebarStep_constructions s.agent i hk,
      ← needsRebuild_iff s.agent i.apiKey]
    cases hnr : needsRebuild s.agent i.apiKey <;> simp [hnr]
  · intro hn
    have hk2 : j.apiKey ≠ "" := by rw [hjk]; exact hk
    have e1agent : (runTurn s i).state.agent = some { apiKey := i.apiKey } := by
      rw [(runTurn_sidebar s i).1, hn]
      unfold sidebarStep
      rw [if_pos hk]
      simp [needsRebuild, hbo]
    have e1c : (runTurn s i).constructions = 1 := by
      rw [(runTurn_sidebar s i).2.1, hn]
      unfold sidebarStep
      rw [if_pos hk]
      simp [needsRebuild, hbo]
    have e2agent :
        (sidebarStep (runTurn s i).state.agent j).agent
          = some { apiKey := i.apiKey } := by
      rw [e1agent]
      exact sidebarStep_same_key { apiKey := i.apiKey } j hjk
    have e2c : (runTurn (runTurn s i).state j).constructions = 0 := by
      rw [(runTurn_sidebar _ j).2.1,
        sidebarStep_constructions _ j hk2, e1agent]
      simp [needsRebuild, hjk]
    refine ⟨by rw [e1c, e2c], ?_⟩
    rw [(runTurn_sidebar _ j).1, e2agent, e1agent]

/-- A rerun input supplying the non-empty key `"k"` with nothing else
happening. -/
def keyTurn : TurnInput :=
  TurnInput.mk "k" (Except.ok ()) none none (Except.ok "")

/-- Witness for C4: two consecutive turns supplying key `"k"` from the
initial state construct the agent exactly once. -/
theorem C4_agent_reconstruction_witness :
    keyTurn.apiKey ≠ "" ∧ keyTurn.buildOutcome = Except.ok () ∧
    (((runTurn initialState keyTurn).constructions = 1 ↔
        (initialState.agent = none ∨
          ∃ a, initialState.agent = some a ∧ a.apiKey ≠ keyTurn.apiKey)) ∧
     (initialState.agent = none →
        (runTurn initialState keyTurn).constructions
            + (runTurn (runTurn initialState keyTurn).state keyTurn).constructions
          = 1 ∧
        (runTurn (runTurn initialState keyTurn).state keyTurn).state.agent
          = (runTurn initialState keyTurn).state.agent)) :=
  ⟨by decide, rfl,
   C4_agent_reconstruction initialState keyTurn keyTurn (by decide) rfl rfl⟩

/-- C6: if `Agent(...)` raises during construction, the turn still
completes, the failure is reported as a visible sidebar error text, and
the previously held handle (or `none`) is left in place unchanged. -/
theorem C6_construction_failure_atomic (s : SessionState) (i : TurnInput)
    (e : String)
    (hk : i.apiKey ≠ "") (hbo : i.buildOutcome = Except.error e)
    (hreb : needsRebuild s.agent i.apiKey = true) :
    (runTurn s i).state.agent = s.agent ∧
    (runTurn s i).sidebarNotices = ["Error initializing agent: " ++ e] := by
  have h := runTurn_sidebar s i
  constructor
  · rw [h.1]
    unfold sidebarStep
    rw [if_pos hk]
    simp [hreb, hbo]
  · rw [h.2.2]
    unfold sidebarStep
    rw [if_pos hk]
    simp [hreb, hbo]

/-- A rerun input whose agent construction raises with message
`"bad key"`. -/
def failTurn : TurnInput :=
  TurnInput.mk "new" (Except.error "bad key") none none (Except.ok "")

/-- A session state that already holds a handle built for key `"old"`. -/
def oldAgentState : SessionState :=
  SessionState.mk [] (some ⟨"old"⟩) none

/-- Witness for C6: a failing rebuild for key `"new"` leaves the handle
built for `"old"` untouched and reports the error. -/
theorem C6_construction_failure_atomic_witness :
    failTurn.apiKey ≠ "" ∧ failTurn.buildOutcome = Except.error "bad key" ∧
    needsRebuild oldAgentState.agent failTurn.apiKey = true ∧
    ((runTurn oldAgentState failTurn).state.agent = oldAgentState.agent ∧
     (runTurn oldAgentState failTurn).sidebarNotices
       = ["Error initializing agent: " ++ "bad key"]) :=
  ⟨by decide, rfl, by decide,
   C6_construction_failure_atomic oldAgentState failTurn "bad key"
     (by decide) rfl (by decide)⟩

/-- The rerun in which an example button is clicked while the key field is
empty. -/
def emptyKeyClick : TurnInput :=
  TurnInput.mk "" (Except.ok ()) (some "Hello") none (Except.ok "")

/-- The follow-up rerun (triggered by `st.rerun()`) with the key field
still empty and no further user event. -/
def emptyKeyRerun : TurnInput :=
  TurnInput.mk "" (Except.ok ()) none none (Except.ok "")

/-- C2, evaluated at the failing input: starting from the initial state
with no key supplied, selecting the example prompt `"Hello"` and letting
the script rerun leaves the agent `none` and never calls the framework
(as the claim says), but the submitted prompt is answered by nothing at
all: only the user message is appended and no assistant-role bubble —
in particular not the fixed warning — is ever rendered for it. -/
theorem C2_example_prompt_without_key_gets_no_warning :
    (runTurn (runTurns initialState [emptyKeyClick]) emptyKeyRerun).state.agent
      = none ∧
    (runTurn (runTurns initialState [emptyKeyClick]) emptyKeyRerun).agentCalls
      = 0 ∧
    (runTurn (runTurns initialState [emptyKeyClick]) emptyKeyRerun).state.messages
      = [Message.mk "user" "Hello"] ∧
    ((runTurn (runTurns initialState [emptyKeyClick]) emptyKeyRerun).chatRendered.filter
        (fun m => m.role == "assistant")) = [] := by
  decide

/-- The rerun in which an example button is clicked while the key `"k"` is
supplied and the agent builds successfully. -/
def keyClick : TurnInput :=
  TurnInput.mk "k" (Except.ok ()) (some "Hello") none (Except.ok "resp")

/-- The follow-up rerun after the example click, key `"k"` still supplied,
no further user event; a run of the agent (were it called) would return
`"resp"`. -/
def keyRerun : TurnInput :=
  TurnInput.mk "k" (Except.ok ()) none none (Except.ok "resp")

/-- C5, evaluated at the failing input: with the agent built for key `"k"`
and the example prompt `"Hello"` selected, the consuming rerun appends the
user message and then stops — `agent.run` is executed zero times and no
assistant-role bubble (response or warning) is rendered, so the
example-prompt path does not proceed to the agent-invocation step the way
the free-text path does. -/
theorem C5_example_prompt_skips_dispatch :
    (runTurn (runTurns initialState [keyClick]) keyRerun).state.agent
      = some { apiKey := "k" } ∧
    (runTurn (runTurns initialState [keyClick]) keyRerun).state.messages
      = [Message.mk "user" "Hello"] ∧
    (runTurn (runTurns initialState [keyClick]) keyRerun).agentCalls = 0 ∧
    ((runTurn (runTurns initialState [keyClick]) keyRerun).chatRendered.filter
        (fun m => m.role == "assistant")) = [] := by
  decide

/-- A rerun input that supplies the non-empty key `"k"` but whose
`Agent(...)` construction raises. -/
def badBuildTurn : TurnInput :=
  TurnInput.mk "k" (Except.error "bad key") none none (Except.ok "")

/-- C7 counterexample: after one turn that supplies a non-empty apiKey
(`"k"`) whose construction raises, the session is in a reachable state in
which a non-empty key has been supplied and yet the agent handle is still
`none` — refuting the claimed equivalence "the agent handle is non-null
if and only if a non-empty apiKey has been supplied". -/
theorem C7_counterexample :
    badBuildTurn.apiKey ≠ "" ∧
    (runTurns initialState [badBuildTurn]).agent = none := by
  decide

/-- C7, amended: (a) the handle is non-null only if a non-empty apiKey
was supplied in some earlier turn (the converse fails when construction
raises); (b) the agent is never invoked in a turn that ends with a null
handle; (c) in the free-text path, submitting a prompt while the handle is
null renders the fixed user-visible warning as an assistant bubble
(example-prompt turns, by contrast, append the user message without any
warning). -/
theorem C7_amended_agent_null_safety :
    (∀ inputs : List TurnInput,
        (runTurns initialState inputs).agent ≠ none →
        ∃ i ∈ inputs, i.apiKey ≠ "") ∧
    (∀ (s : SessionState) (i : TurnInput),
        (runTurn s i).state.agent = none → (runTurn s i).agentCalls = 0) ∧
    (∀ (s : SessionState) (i : TurnInput) (p : String),
        i.clickedExample = none → i.chatInput = some p → p ≠ "" →
        (runTurn s i).state.agent = none →
        Message.mk "assistant" warningText ∈ (runTurn s i).chatRendered) := by
  refine ⟨?_, ?_, ?_⟩
  · intro inputs
    suffices h : ∀ s : SessionState, s.agent = none →
        (runTurns s inputs).agent ≠ none → ∃ i ∈ inputs, i.apiKey ≠ "" by
      exact h initialState rfl
    induction inputs with
    | nil =>
        intro s hs hne
        exact absurd hs hne
    | cons i rest ih =>
        intro s hs hne
        by_cases hk : i.apiKey = ""
        · have hstep : (runTurn s i).state.agent = none := by
            rw [(runTurn_sidebar s i).1, sidebarStep_agent_of_empty s.agent i hk, hs]
          obtain ⟨j, hj, hjk⟩ := ih (runTurn s i).state hstep hne
          exact ⟨j, List.mem_cons_of_mem i hj, hjk⟩
        · exact ⟨i, List.mem_cons_self i rest, hk⟩
  · exact runTurn_calls_of_agent_none
  · intro s i p hce hci hp hnull
    have hsb : (sidebarStep s.agent i).agent = none := by
      rw [← (runTurn_sidebar s i).1]
      exact hnull
    cases hex : s.examplePrompt <;>
      simp [runTurn, hce, hci, hp, hsb, hex]

/-- The rerun in which the free-text prompt `"Hi"` is submitted while the
key field is empty. -/
def promptNoKeyTurn : TurnInput :=
  TurnInput.mk "" (Except.ok ()) none (some "Hi") (Except.ok "")

/-- Witness for the amended C7: submitting `"Hi"` from the initial state
with no key keeps the handle null, performs no agent call, and renders the
fixed warning. -/
theorem C7_amended_agent_null_safety_witness :
    (runTurn initialState promptNoKeyTurn).state.agent = none ∧
    (runTurn initialState promptNoKeyTurn).agentCalls = 0 ∧
    Message.mk "assistant" warningText
      ∈ (runTurn initialState promptNoKeyTurn).chatRendered :=
  ⟨by decide,
   C7_amended_agent_null_safety.2.1 initialState promptNoKeyTurn (by decide),
   C7_amended_agent_null_safety.2.2 initialState promptNoKeyTurn "Hi"
     rfl rfl (by decide) (by decide)⟩
